import Mathlib

/-
Verification of the Subscription Store and News Query Gateway of the
football-news-app repository, against a shallow embedding of its
TypeScript source.

The repository contains two generations of the store code:
  * `src/app/api/subscriptions/route.ts` and the first part of
    `src/app/actions.ts` work over a three-collection record
    `{ leagues, teams, players }` and their switches recognise only the
    categories "league" / "team" / "player";
  * `src/unnamed/part_000` (a newer server-actions module) works over a
    four-collection record that also has `tournaments`, and its switches
    additionally recognise "tournament".
Both generations are embedded below (suffix 3 and suffix 4).

The persisted JSON file is modelled by `FileState`: it is absent, it is
unreadable or unparsable (`corrupt`), or it holds a record (`good`).
Because `JSON.parse` is dynamic, a parsed record may lack the
`tournaments` key; the field is therefore an `Option (List String)`.
Durable-write success is a boolean parameter `w`: a `writeFileSync` call
made while `w` is false throws, which the TypeScript code either
swallows (in `getSubscriptions`) or converts to its generic failure
response (in the handlers and actions).
-/

namespace Football

/-- JavaScript `String.prototype.toLowerCase` (the ASCII mapping, which
is all the category switches rely on), embedded structurally so that it
evaluates inside the kernel. -/
def jsToLower (s : String) : String := ⟨s.data.map Char.toLower⟩

/-- JavaScript `String.prototype.trim`, embedded structurally: strip
leading and trailing whitespace characters. -/
def jsTrim (s : String) : String :=
  ⟨((s.data.dropWhile Char.isWhitespace).reverse.dropWhile Char.isWhitespace).reverse⟩

/-- Split a character list at every occurrence of the separator; the
separator is consumed, empty segments are kept (JavaScript `split`
with a one-character separator). -/
def splitOnChar (sep : Char) : List Char → List String
  | [] => [""]
  | c :: cs =>
    if c = sep then "" :: splitOnChar sep cs
    else
      match splitOnChar sep cs with
      | [] => [⟨[c]⟩]
      | r :: rs => ⟨c :: r.data⟩ :: rs

/-- JavaScript `String.prototype.split` with a one-character
separator. -/
def jsSplit (sep : Char) (s : String) : List String := splitOnChar sep s.data

/-- Embedded subscription record (the parsed contents of
`subscriptions.json`).  `tournaments` is optional because the JSON file
written by the older three-collection code has no such key. -/
structure SubsObj where
  leagues : List String
  teams : List String
  players : List String
  tournaments : Option (List String)
  deriving DecidableEq

/-- State of the backing `subscriptions.json` file. -/
inductive FileState where
  | absent
  | corrupt
  | good (s : SubsObj)
  deriving DecidableEq

/-- Default record written and returned by the three-collection
`getSubscriptions` (route.ts / actions.ts): no `tournaments` key. -/
def default3 : SubsObj := ⟨[], [], [], none⟩

/-- Default record written and returned by the four-collection
`getSubscriptions` (part_000): all four collections present and empty. -/
def default4 : SubsObj := ⟨[], [], [], some []⟩

/-- `getSubscriptions` of route.ts / actions.ts.  On a missing file it
writes `default3` (if the write succeeds) and returns it; on a read or
parse failure it catches the error and returns `default3` without
touching the file.  It never raises: the whole body is a try/catch. -/
def getSubscriptions3 (w : Bool) (fs : FileState) : SubsObj × FileState :=
  match fs with
  | .good s => (s, .good s)
  | .corrupt => (default3, .corrupt)
  | .absent => if w then (default3, .good default3) else (default3, .absent)

/-- `getSubscriptions` of part_000: same shape with the four-collection
default. -/
def getSubscriptions4 (w : Bool) (fs : FileState) : SubsObj × FileState :=
  match fs with
  | .good s => (s, .good s)
  | .corrupt => (default4, .corrupt)
  | .absent => if w then (default4, .good default4) else (default4, .absent)

/-- HTTP-level result of the route handlers. -/
structure RouteResponse where
  status : Nat
  success : Bool
  error : Option String
  deriving DecidableEq

def routeOk : RouteResponse := ⟨200, true, none⟩

def routeInvalidCategory : RouteResponse := ⟨400, false, some "Invalid category"⟩

/-- POST of `src/app/api/subscriptions/route.ts`.  Validates the body,
loads the current record, switches on `category.toLowerCase()` over the
three recognised categories; appends and saves only when the term is
not already present; a failing save is caught by the outer handler and
becomes the generic 500.  The switch has no "tournament" case: that
string falls to the default branch. -/
def routePost (w : Bool) (term category : String) (fs : FileState) :
    RouteResponse × FileState :=
  if term = "" ∨ category = "" then
    (⟨400, false, some "Invalid subscription data"⟩, fs)
  else
    let st := getSubscriptions3 w fs
    let subs := st.1
    let c := jsToLower category
    if c = "league" then
      if term ∈ subs.leagues then (routeOk, st.2)
      else if w then (routeOk, .good { subs with leagues := subs.leagues ++ [term] })
      else (⟨500, false, some "Failed to subscribe"⟩, st.2)
    else if c = "team" then
      if term ∈ subs.teams then (routeOk, st.2)
      else if w then (routeOk, .good { subs with teams := subs.teams ++ [term] })
      else (⟨500, false, some "Failed to subscribe"⟩, st.2)
    else if c = "player" then
      if term ∈ subs.players then (routeOk, st.2)
      else if w then (routeOk, .good { subs with players := subs.players ++ [term] })
      else (⟨500, false, some "Failed to subscribe"⟩, st.2)
    else (routeInvalidCategory, st.2)

/-- DELETE of `src/app/api/subscriptions/route.ts`.  Filter semantics,
and the filtered record is saved unconditionally (also when the term
was absent). -/
def routeDelete (w : Bool) (term category : String) (fs : FileState) :
    RouteResponse × FileState :=
  if term = "" ∨ category = "" then
    (⟨400, false, some "Invalid unsubscribe data"⟩, fs)
  else
    let st := getSubscriptions3 w fs
    let subs := st.1
    let c := jsToLower category
    if c = "league" then
      let s2 := { subs with leagues := subs.leagues.filter (fun item => item != term) }
      if w then (routeOk, .good s2)
      else (⟨500, false, some "Failed to unsubscribe"⟩, st.2)
    else if c = "team" then
      let s2 := { subs with teams := subs.teams.filter (fun item => item != term) }
      if w then (routeOk, .good s2)
      else (⟨500, false, some "Failed to unsubscribe"⟩, st.2)
    else if c = "player" then
      let s2 := { subs with players := subs.players.filter (fun item => item != term) }
      if w then (routeOk, .good s2)
      else (⟨500, false, some "Failed to unsubscribe"⟩, st.2)
    else (routeInvalidCategory, st.2)

/-- `subscribeAction` of part_000 (four categories).  Every throw inside
the try block — the explicit `Invalid category`, the `TypeError` raised
when the loaded record has no `tournaments` key, and a failing save —
is caught and re-thrown as the single generic `Failed to subscribe`. -/
def subscribeAction4 (w : Bool) (term category : String) (fs : FileState) :
    Except String Unit × FileState :=
  let st := getSubscriptions4 w fs
  let subs := st.1
  let c := jsToLower category
  if c = "league" then
    if term ∈ subs.leagues then (.ok (), st.2)
    else if w then (.ok (), .good { subs with leagues := subs.leagues ++ [term] })
    else (.error "Failed to subscribe", st.2)
  else if c = "team" then
    if term ∈ subs.teams then (.ok (), st.2)
    else if w then (.ok (), .good { subs with teams := subs.teams ++ [term] })
    else (.error "Failed to subscribe", st.2)
  else if c = "player" then
    if term ∈ subs.players then (.ok (), st.2)
    else if w then (.ok (), .good { subs with players := subs.players ++ [term] })
    else (.error "Failed to subscribe", st.2)
  else if c = "tournament" then
    match subs.tournaments with
    | none => (.error "Failed to subscribe", st.2)
    | some ts =>
      if term ∈ ts then (.ok (), st.2)
      else if w then (.ok (), .good { subs with tournaments := some (ts ++ [term]) })
      else (.error "Failed to subscribe", st.2)
  else (.error "Failed to subscribe", st.2)

/-- `unsubscribeAction` of part_000 (four categories, filter semantics,
unconditional save; all failures collapse to `Failed to unsubscribe`). -/
def unsubscribeAction4 (w : Bool) (term category : String) (fs : FileState) :
    Except String Unit × FileState :=
  let st := getSubscriptions4 w fs
  let subs := st.1
  let c := jsToLower category
  if c = "league" then
    let s2 := { subs with leagues := subs.leagues.filter (fun item => item != term) }
    if w then (.ok (), .good s2) else (.error "Failed to unsubscribe", st.2)
  else if c = "team" then
    let s2 := { subs with teams := subs.teams.filter (fun item => item != term) }
    if w then (.ok (), .good s2) else (.error "Failed to unsubscribe", st.2)
  else if c = "player" then
    let s2 := { subs with players := subs.players.filter (fun item => item != term) }
    if w then (.ok (), .good s2) else (.error "Failed to unsubscribe", st.2)
  else if c = "tournament" then
    match subs.tournaments with
    | none => (.error "Failed to unsubscribe", st.2)
    | some ts =>
      let s2 := { subs with tournaments := some (ts.filter (fun item => item != term)) }
      if w then (.ok (), .good s2) else (.error "Failed to unsubscribe", st.2)
  else (.error "Failed to unsubscribe", st.2)

/-- `subscribeAction` of `src/app/actions.ts` (older three-category
variant). -/
def subscribeAction3 (w : Bool) (term category : String) (fs : FileState) :
    Except String Unit × FileState :=
  let st := getSubscriptions3 w fs
  let subs := st.1
  let c := jsToLower category
  if c = "league" then
    if term ∈ subs.leagues then (.ok (), st.2)
    else if w then (.ok (), .good { subs with leagues := subs.leagues ++ [term] })
    else (.error "Failed to subscribe", st.2)
  else if c = "team" then
    if term ∈ subs.teams then (.ok (), st.2)
    else if w then (.ok (), .good { subs with teams := subs.teams ++ [term] })
    else (.error "Failed to subscribe", st.2)
  else if c = "player" then
    if term ∈ subs.players then (.ok (), st.2)
    else if w then (.ok (), .good { subs with players := subs.players ++ [term] })
    else (.error "Failed to subscribe", st.2)
  else (.error "Failed to subscribe", st.2)

/-- `unsubscribeAction` of `src/app/actions.ts` (older three-category
variant). -/
def unsubscribeAction3 (w : Bool) (term category : String) (fs : FileState) :
    Except String Unit × FileState :=
  let st := getSubscriptions3 w fs
  let subs := st.1
  let c := jsToLower category
  if c = "league" then
    let s2 := { subs with leagues := subs.leagues.filter (fun item => item != term) }
    if w then (.ok (), .good s2) else (.error "Failed to unsubscribe", st.2)
  else if c = "team" then
    let s2 := { subs with teams := subs.teams.filter (fun item => item != term) }
    if w then (.ok (), .good s2) else (.error "Failed to unsubscribe", st.2)
  else if c = "player" then
    let s2 := { subs with players := subs.players.filter (fun item => item != term) }
    if w then (.ok (), .good s2) else (.error "Failed to unsubscribe", st.2)
  else (.error "Failed to unsubscribe", st.2)

/-- Which client-side collection the optimistic UI update of
`handleSubscribe` in `src/app/page.tsx` pushes the term into. -/
inductive Bucket where
  | leagues
  | teams
  | players
  | tournaments
  deriving DecidableEq

/-- The optimistic-update switch of `handleSubscribe` (page.tsx).  The
inner `finalCategory !== "tournament"` test of the default branch is
kept verbatim even though the preceding case makes it always true. -/
def optimisticBucket (finalCategory : String) : Bucket :=
  if finalCategory = "league" then .leagues
  else if finalCategory = "team" then .teams
  else if finalCategory = "player" then .players
  else if finalCategory = "tournament" then .tournaments
  else if finalCategory ≠ "tournament" then .players
  else .tournaments

/-- A parsed news item (the impure per-line id of the source, built
from the line index and `Date.now()`, is not modelled). -/
structure NewsItem where
  title : String
  date : String
  url : String
  deriving DecidableEq

/-- JavaScript `v || d` on an optional string field: `undefined` and
the empty string are falsy. -/
def jsOrElse (v : Option String) (d : String) : String :=
  match v with
  | none => d
  | some s => if s = "" then d else s

def placeholderUrl : String := "https://example.com/placeholder"

/-- One line of the upstream reply, split on `|` into trimmed fields
assigned to title / date / url; missing date and url default. -/
def parseLine (today line : String) : NewsItem :=
  let parts := (jsSplit '|' line).map jsTrim
  { title := parts.headD ""
    date := jsOrElse parts[1]? today
    url := jsOrElse parts[2]? placeholderUrl }

/-- The parsing pipeline of the news POST handler: split the reply into
lines, trim, drop empty lines, parse each line. -/
def parseNews (today text : String) : List NewsItem :=
  (((jsSplit '\n' text).map jsTrim).filter (fun line => line.length > 0)).map
    (parseLine today)

/-- Outcome of the upstream chat-completion call as the catch block of
the news POST handler distinguishes it: a reply with content, a thrown
error carrying `error.response` with a status and optional message, or
a thrown error with no response (transport failure). -/
inductive Upstream where
  | ok (content : String)
  | httpError (status : Nat) (msg : Option String)
  | transport
  deriving DecidableEq

/-- HTTP-level result of the news POST handler. -/
structure ApiResponse where
  status : Nat
  news : Option (List NewsItem)
  error : Option String
  deriving DecidableEq

def newsFetchFailMsg : String := "Failed to fetch news from xAI"

/-- The news POST handler (second document of `src/app/actions.ts`).
On an empty parse it throws `No news or game data returned from xAI
API`; that error has no `response` field, so the catch block turns it
into the same generic 500 response as a transport failure. -/
def newsPost (today q : String) (up : Upstream) : ApiResponse :=
  if q = "" then ⟨400, none, some "Please provide a valid query"⟩
  else
    match up with
    | .ok content =>
      let newsSummaries := parseNews today content
      if newsSummaries.length = 0 then ⟨500, none, some newsFetchFailMsg⟩
      else ⟨200, some newsSummaries, none⟩
    | .httpError status msg =>
      if status = 401 then ⟨401, none, some "Invalid or missing xAI API key"⟩
      else if status = 403 then ⟨403, none, some "Access forbidden to xAI API"⟩
      else if status = 429 then ⟨429, none, some "Rate limit exceeded for xAI API"⟩
      else ⟨if status = 0 then 500 else status, none, some (jsOrElse msg newsFetchFailMsg)⟩
    | .transport => ⟨500, none, some newsFetchFailMsg⟩

/-- The four canonical category names, lower-cased. -/
def fourCats : List String := ["league", "team", "player", "tournament"]

/-- The three categories the route handlers actually recognise. -/
def threeCats : List String := ["league", "team", "player"]

/-- Resolved collection of a (lower-cased, recognised) category. -/
def catList (c : String) (s : SubsObj) : List String :=
  if c = "league" then s.leagues
  else if c = "team" then s.teams
  else if c = "player" then s.players
  else s.tournaments.getD []

/-- Each category collection holds no duplicate entries (the
`tournaments` collection when present). -/
def NodupSubs (s : SubsObj) : Prop :=
  s.leagues.Nodup ∧ s.teams.Nodup ∧ s.players.Nodup ∧ (s.tournaments.getD []).Nodup

/-- The per-category uniqueness invariant on a file state. -/
def NodupState : FileState → Prop
  | .good s => NodupSubs s
  | _ => True

/-- Loading a present record returns it unchanged. -/
lemma getSubscriptions4_good (w : Bool) (s : SubsObj) :
    getSubscriptions4 w (.good s) = (s, .good s) := rfl

/-- Loading is idempotent on the file state (four-collection variant). -/
lemma getSubscriptions4_idem (w : Bool) (fs : FileState) :
    getSubscriptions4 w (getSubscriptions4 w fs).2 = getSubscriptions4 w fs := by
  cases fs <;> cases w <;> rfl

/-- Loading is idempotent on the file state (three-collection variant). -/
lemma getSubscriptions3_idem (w : Bool) (fs : FileState) :
    getSubscriptions3 w (getSubscriptions3 w fs).2 = getSubscriptions3 w fs := by
  cases fs <;> cases w <;> rfl

/-- An unrecognised category makes `subscribeAction` (part_000) fail and
leaves the file as the load left it. -/
lemma subscribeAction4_unrecognized (w : Bool) (term cat : String) (fs : FileState)
    (h : jsToLower cat ∉ fourCats) :
    subscribeAction4 w term cat fs = (.error "Failed to subscribe", (getSubscriptions4 w fs).2) := by
  simp only [fourCats, List.mem_cons, List.mem_singleton, List.not_mem_nil, or_false,
    not_or] at h
  obtain ⟨h1, h2, h3, h4⟩ := h
  simp [subscribeAction4, h1, h2, h3, h4]

/-- An unrecognised category makes `unsubscribeAction` (part_000) fail
and leaves the file as the load left it. -/
lemma unsubscribeAction4_unrecognized (w : Bool) (term cat : String) (fs : FileState)
    (h : jsToLower cat ∉ fourCats) :
    unsubscribeAction4 w term cat fs =
      (.error "Failed to unsubscribe", (getSubscriptions4 w fs).2) := by
  simp only [fourCats, List.mem_cons, List.mem_singleton, List.not_mem_nil, or_false,
    not_or] at h
  obtain ⟨h1, h2, h3, h4⟩ := h
  simp [unsubscribeAction4, h1, h2, h3, h4]

/-- A category outside the three the route recognises makes POST answer
`Invalid category` without writing. -/
lemma routePost_unrecognized (w : Bool) (term cat : String) (fs : FileState)
    (hterm : term ≠ "") (hcat : cat ≠ "") (h : jsToLower cat ∉ threeCats) :
    routePost w term cat fs = (routeInvalidCategory, (getSubscriptions3 w fs).2) := by
  simp only [threeCats, List.mem_cons, List.mem_singleton, List.not_mem_nil, or_false,
    not_or] at h
  obtain ⟨h1, h2, h3⟩ := h
  simp [routePost, hterm, hcat, h1, h2, h3]

/-- A category outside the three the route recognises makes DELETE
answer `Invalid category` without writing. -/
lemma routeDelete_unrecognized (w : Bool) (term cat : String) (fs : FileState)
    (hterm : term ≠ "") (hcat : cat ≠ "") (h : jsToLower cat ∉ threeCats) :
    routeDelete w term cat fs = (routeInvalidCategory, (getSubscriptions3 w fs).2) := by
  simp only [threeCats, List.mem_cons, List.mem_singleton, List.not_mem_nil, or_false,
    not_or] at h
  obtain ⟨h1, h2, h3⟩ := h
  simp [routeDelete, hterm, hcat, h1, h2, h3]

/-- A recognised category makes `subscribeAction` (part_000) succeed
when the write succeeds and the tournaments collection is present. -/
lemma subscribeAction4_recognized (term cat : String) (fs : FileState)
    (hrec : jsToLower cat ∈ fourCats)
    (hts : ((getSubscriptions4 true fs).1).tournaments.isSome) :
    (subscribeAction4 true term cat fs).1 = .ok () := by
  obtain ⟨ts, hts'⟩ := Option.isSome_iff_exists.mp hts
  simp only [fourCats, List.mem_cons, List.mem_singleton, List.not_mem_nil, or_false] at hrec
  rcases hrec with h | h | h | h <;> simp only [subscribeAction4, h] <;> simp [hts'] <;>
    split <;> simp

/-- A recognised category makes `unsubscribeAction` (part_000) succeed
when the write succeeds and the tournaments collection is present. -/
lemma unsubscribeAction4_recognized (term cat : String) (fs : FileState)
    (hrec : jsToLower cat ∈ fourCats)
    (hts : ((getSubscriptions4 true fs).1).tournaments.isSome) :
    (unsubscribeAction4 true term cat fs).1 = .ok () := by
  obtain ⟨ts, hts'⟩ := Option.isSome_iff_exists.mp hts
  simp only [fourCats, List.mem_cons, List.mem_singleton, List.not_mem_nil, or_false] at hrec
  rcases hrec with h | h | h | h <;> simp [unsubscribeAction4, h, hts']

/-- A route-recognised category makes POST succeed when the write
succeeds. -/
lemma routePost_recognized (term cat : String) (fs : FileState)
    (hterm : term ≠ "") (hcat : cat ≠ "") (hrec : jsToLower cat ∈ threeCats) :
    (routePost true term cat fs).1.success = true := by
  simp only [threeCats, List.mem_cons, List.mem_singleton, List.not_mem_nil, or_false] at hrec
  rcases hrec with h | h | h <;> simp only [routePost, h] <;> simp [hterm, hcat, routeOk] <;>
    split <;> simp [routeOk]

/-- A route-recognised category makes DELETE succeed when the write
succeeds. -/
lemma routeDelete_recognized (term cat : String) (fs : FileState)
    (hterm : term ≠ "") (hcat : cat ≠ "") (hrec : jsToLower cat ∈ threeCats) :
    (routeDelete true term cat fs).1.success = true := by
  simp only [threeCats, List.mem_cons, List.mem_singleton, List.not_mem_nil, or_false] at hrec
  rcases hrec with h | h | h <;> simp [routeDelete, h, hterm, hcat, routeOk]

/-- C6: the news POST splits the reply into non-empty trimmed lines and
each line on the pipe into up to three trimmed fields (title, date,
url), the date defaulting to the current date and the url to the
placeholder; on the two-line sample text it yields exactly the two
expected items. -/
theorem C6_parse_pipeline (today : String) :
    parseNews today "Team A wins | 2025-03-01 | https://x.com/a\nTeam B loses" =
      [⟨"Team A wins", "2025-03-01", "https://x.com/a"⟩,
       ⟨"Team B loses", today, "https://example.com/placeholder"⟩] := by
  rfl

/-- C2 counterexample: the `getSubscriptions` of route.ts / actions.ts
initialises a fresh store with only three collections: the returned
record has no `tournaments` collection, contradicting the claim that
all four collections are present. -/
theorem C2_cex :
    (getSubscriptions3 true .absent).1.tournaments = none ∧
    getSubscriptions3 true .absent = (default3, .good default3) := ⟨rfl, rfl⟩

/-- C2 amended: `load` never raises — it returns on every file state —
and on a fresh store or on a read/parse failure the part_000 variant
returns all four collections present and empty, while the route.ts /
actions.ts variant returns the three collections leagues, teams,
players empty with no `tournaments` key. -/
theorem C2_load_never_raises (w : Bool) :
    getSubscriptions4 w .absent = (default4, if w then .good default4 else .absent) ∧
    getSubscriptions4 w .corrupt = (default4, .corrupt) ∧
    default4 = ⟨[], [], [], some []⟩ ∧
    getSubscriptions3 w .absent = (default3, if w then .good default3 else .absent) ∧
    getSubscriptions3 w .corrupt = (default3, .corrupt) ∧
    default3 = ⟨[], [], [], none⟩ := by
  cases w <;> exact ⟨rfl, rfl, rfl, rfl, rfl, rfl⟩

/-- C1 counterexample: the API route handler rejects the canonical
category "tournament" with the `Invalid category` error and leaves the
stored set unchanged, contradicting the claim that add accepts every
category matching one of the four canonical names. -/
theorem C1_cex :
    (routePost true "X" "tournament" (.good default4)).1 = routeInvalidCategory ∧
    (routePost true "X" "tournament" (.good default4)).2 = .good default4 ∧
    (routeDelete true "X" "tournament" (.good default4)).1 = routeInvalidCategory := by
  exact ⟨rfl, rfl, rfl⟩

/-- C5: loading immediately after adding "Arsenal" under "team" through
the route handler yields a set whose teams contain "Arsenal" and whose
leagues, players and tournaments are exactly those of the starting
set. -/
theorem C5_roundtrip_frame (s : SubsObj) :
    "Arsenal" ∈ (getSubscriptions3 true (routePost true "Arsenal" "team" (.good s)).2).1.teams ∧
    (getSubscriptions3 true (routePost true "Arsenal" "team" (.good s)).2).1.leagues = s.leagues ∧
    (getSubscriptions3 true (routePost true "Arsenal" "team" (.good s)).2).1.players = s.players ∧
    (getSubscriptions3 true (routePost true "Arsenal" "team" (.good s)).2).1.tournaments
      = s.tournaments := by
  have ht : jsToLower "team" = "team" := by decide
  by_cases h : "Arsenal" ∈ s.teams <;>
    simp [routePost, getSubscriptions3, ht, h]

/-- C7 counterexample: an upstream success whose text parses to zero
items produces exactly the same response as a transport failure — the
generic 500 — so the no-results failure is not distinct from a
transport error at the caller-visible boundary. -/
theorem C7_cex :
    newsPost "2025-03-01" "Arsenal" (.ok "") = newsPost "2025-03-01" "Arsenal" .transport ∧
    newsPost "2025-03-01" "Arsenal" (.ok "") =
      ⟨500, none, some "Failed to fetch news from xAI"⟩ := ⟨rfl, rfl⟩

/-- C7 amended: whenever the parsed item list is empty the call fails
(HTTP 500 with no news) rather than succeeding with an empty list, but
the surfaced response is identical to the transport-error response; the
internally thrown no-results error is not distinguishable by the
caller. -/
theorem C7_empty_parse_fails (today q content : String) (hq : q ≠ "")
    (h : parseNews today content = []) :
    newsPost today q (.ok content) = ⟨500, none, some "Failed to fetch news from xAI"⟩ ∧
    newsPost today q (.ok content) = newsPost today q .transport := by
  simp [newsPost, hq, h, newsFetchFailMsg]

/-- C7 amended witness at the empty upstream text. -/
theorem C7_empty_parse_fails_witness :
    newsPost "2025-03-01" "X" (.ok "") = ⟨500, none, some "Failed to fetch news from xAI"⟩ ∧
    newsPost "2025-03-01" "X" (.ok "") = newsPost "2025-03-01" "X" .transport :=
  C7_empty_parse_fails "2025-03-01" "X" "" (by decide) rfl

/-- C8 counterexample: for the non-canonical category "galaxy" the
subscription is not permitted — `subscribeAction` fails with the
generic error and the persisted set is unchanged — even though the
client-side optimistic update does place the term under players. -/
theorem C8_cex :
    (subscribeAction4 true "X" "galaxy" (.good default4)).1 = .error "Failed to subscribe" ∧
    (subscribeAction4 true "X" "galaxy" (.good default4)).2 = .good default4 ∧
    optimisticBucket "galaxy" = .players := by
  exact ⟨rfl, rfl, rfl⟩

/-- Appending a fresh element keeps a list duplicate-free. -/
lemma nodup_push {l : List String} {a : String} (h : l.Nodup) (ha : a ∉ l) :
    (l ++ [a]).Nodup := by
  rw [List.nodup_append]
  refine ⟨h, List.nodup_singleton a, fun x hx hxa => ?_⟩
  simp only [List.mem_singleton] at hxa
  exact ha (hxa ▸ hx)

/-- C1 amended: with a well-formed stored record, the server actions of
part_000 accept a category exactly when it lower-cases to one of the
four canonical names and reject any other category without writing,
while the API route handlers accept exactly league, team, player — the
canonical "tournament" is rejected there with `Invalid category` — and
a rejected request leaves the stored set unchanged. -/
theorem C1_accept_exactly (term cat : String) (s : SubsObj)
    (hterm : term ≠ "") (hcat : cat ≠ "") (hts : s.tournaments.isSome) :
    ((subscribeAction4 true term cat (.good s)).1 = .ok () ↔ jsToLower cat ∈ fourCats) ∧
    ((unsubscribeAction4 true term cat (.good s)).1 = .ok () ↔ jsToLower cat ∈ fourCats) ∧
    (jsToLower cat ∉ fourCats →
      (subscribeAction4 true term cat (.good s)).2 = .good s ∧
      (unsubscribeAction4 true term cat (.good s)).2 = .good s) ∧
    ((routePost true term cat (.good s)).1.success = true ↔ jsToLower cat ∈ threeCats) ∧
    ((routeDelete true term cat (.good s)).1.success = true ↔ jsToLower cat ∈ threeCats) ∧
    (jsToLower cat ∉ threeCats →
      (routePost true term cat (.good s)).1 = routeInvalidCategory ∧
      (routePost true term cat (.good s)).2 = .good s ∧
      (routeDelete true term cat (.good s)).1 = routeInvalidCategory ∧
      (routeDelete true term cat (.good s)).2 = .good s) := by
  have hts4 : ((getSubscriptions4 true (.good s)).1).tournaments.isSome := hts
  refine ⟨⟨fun hok => ?_, fun hrec => subscribeAction4_recognized term cat _ hrec hts4⟩,
    ⟨fun hok => ?_, fun hrec => unsubscribeAction4_recognized term cat _ hrec hts4⟩,
    fun hbad => ?_,
    ⟨fun hok => ?_, fun hrec => routePost_recognized term cat _ hterm hcat hrec⟩,
    ⟨fun hok => ?_, fun hrec => routeDelete_recognized term cat _ hterm hcat hrec⟩,
    fun hbad => ?_⟩
  · by_contra hbad
    rw [subscribeAction4_unrecognized true term cat _ hbad] at hok
    simp at hok
  · by_contra hbad
    rw [unsubscribeAction4_unrecognized true term cat _ hbad] at hok
    simp at hok
  · rw [subscribeAction4_unrecognized true term cat _ hbad,
      unsubscribeAction4_unrecognized true term cat _ hbad]
    exact ⟨rfl, rfl⟩
  · by_contra hbad
    rw [routePost_unrecognized true term cat _ hterm hcat hbad] at hok
    simp [routeInvalidCategory] at hok
  · by_contra hbad
    rw [routeDelete_unrecognized true term cat _ hterm hcat hbad] at hok
    simp [routeInvalidCategory] at hok
  · rw [routePost_unrecognized true term cat _ hterm hcat hbad,
      routeDelete_unrecognized true term cat _ hterm hcat hbad]
    exact ⟨rfl, rfl, rfl, rfl⟩

/-- C1 amended witness: the non-canonical category "galaxy" is rejected
by the route handler with `Invalid category` and by the server action
without a write. -/
theorem C1_accept_exactly_witness :
    (routePost true "X" "galaxy" (.good default4)).1 = routeInvalidCategory ∧
    (subscribeAction4 true "X" "galaxy" (.good default4)).2 = .good default4 :=
  ⟨((C1_accept_exactly "X" "galaxy" default4 (by decide) (by decide) (by decide)).2.2.2.2.2
      (by decide)).1,
   ((C1_accept_exactly "X" "galaxy" default4 (by decide) (by decide) (by decide)).2.2.1
      (by decide)).1⟩

/-- C3: adding the same term under the same recognised category twice
persists exactly the same set as adding it once — the second call finds
the term present and performs no mutation. -/
theorem C3_add_idempotent (term cat : String) (fs : FileState)
    (hrec : jsToLower cat ∈ fourCats)
    (hts : ((getSubscriptions4 true fs).1).tournaments.isSome) :
    (subscribeAction4 true term cat fs).1 = .ok () ∧
    subscribeAction4 true term cat (subscribeAction4 true term cat fs).2 =
      (.ok (), (subscribeAction4 true term cat fs).2) := by
  obtain ⟨ts, hts'⟩ := Option.isSome_iff_exists.mp hts
  refine ⟨subscribeAction4_recognized term cat fs hrec hts, ?_⟩
  simp only [fourCats, List.mem_cons, List.mem_singleton, List.not_mem_nil, or_false] at hrec
  rcases hrec with h | h | h | h
  · by_cases hm : term ∈ (getSubscriptions4 true fs).1.leagues
    · simp [subscribeAction4, h, hm, getSubscriptions4_idem]
    · simp [subscribeAction4, h, hm, getSubscriptions4_good, List.mem_append]
  · by_cases hm : term ∈ (getSubscriptions4 true fs).1.teams
    · simp [subscribeAction4, h, hm, getSubscriptions4_idem]
    · simp [subscribeAction4, h, hm, getSubscriptions4_good, List.mem_append]
  · by_cases hm : term ∈ (getSubscriptions4 true fs).1.players
    · simp [subscribeAction4, h, hm, getSubscriptions4_idem]
    · simp [subscribeAction4, h, hm, getSubscriptions4_good, List.mem_append]
  · by_cases hm : term ∈ ts
    · simp [subscribeAction4, h, hts', hm, getSubscriptions4_idem]
    · simp [subscribeAction4, h, hts', hm, getSubscriptions4_good, List.mem_append]

/-- C3 witness at a concrete add performed twice. -/
theorem C3_add_idempotent_witness :
    subscribeAction4 true "Arsenal" "team"
        ((subscribeAction4 true "Arsenal" "team" (.good default4)).2) =
      (.ok (), (subscribeAction4 true "Arsenal" "team" (.good default4)).2) :=
  (C3_add_idempotent "Arsenal" "team" (.good default4) (by decide) (by decide)).2

/-- C4: remove has filter semantics — after the call the resolved
collection is exactly the old collection with every occurrence of the
term filtered out (order of the rest preserved), the term no longer
occurs, and the set is re-persisted (the final state is a freshly
written record) even when the term was absent. -/
theorem C4_remove_filter (term cat : String) (fs : FileState)
    (hrec : jsToLower cat ∈ fourCats)
    (hts : ((getSubscriptions4 true fs).1).tournaments.isSome) :
    (unsubscribeAction4 true term cat fs).1 = .ok () ∧
    ∃ s2 : SubsObj, (unsubscribeAction4 true term cat fs).2 = .good s2 ∧
      catList (jsToLower cat) s2 =
        (catList (jsToLower cat) (getSubscriptions4 true fs).1).filter
          (fun item => item != term) ∧
      term ∉ catList (jsToLower cat) s2 := by
  obtain ⟨ts, hts'⟩ := Option.isSome_iff_exists.mp hts
  refine ⟨unsubscribeAction4_recognized term cat fs hrec hts, ?_⟩
  simp only [fourCats, List.mem_cons, List.mem_singleton, List.not_mem_nil, or_false] at hrec
  rcases hrec with h | h | h | h
  · refine ⟨{ (getSubscriptions4 true fs).1 with
        leagues := ((getSubscriptions4 true fs).1.leagues).filter (fun item => item != term) },
      ?_, ?_, ?_⟩
    · simp [unsubscribeAction4, h]
    · simp [catList, h]
    · simp [catList, h, List.mem_filter]
  · refine ⟨{ (getSubscriptions4 true fs).1 with
        teams := ((getSubscriptions4 true fs).1.teams).filter (fun item => item != term) },
      ?_, ?_, ?_⟩
    · simp [unsubscribeAction4, h]
    · simp [catList, h]
    · simp [catList, h, List.mem_filter]
  · refine ⟨{ (getSubscriptions4 true fs).1 with
        players := ((getSubscriptions4 true fs).1.players).filter (fun item => item != term) },
      ?_, ?_, ?_⟩
    · simp [unsubscribeAction4, h]
    · simp [catList, h]
    · simp [catList, h, List.mem_filter]
  · refine ⟨{ (getSubscriptions4 true fs).1 with
        tournaments := some (ts.filter (fun item => item != term)) },
      ?_, ?_, ?_⟩
    · simp [unsubscribeAction4, h, hts']
    · simp [catList, h, hts']
    · simp [catList, h, List.mem_filter]

/-- C4 witness at a concrete removal of an absent term. -/
theorem C4_remove_filter_witness :
    (unsubscribeAction4 true "X" "player" (.good default4)).1 = .ok () :=
  (C4_remove_filter "X" "player" (.good default4) (by decide) (by decide)).1

/-- C8 amended: for a category string whose lowercase form is outside
the four canonical names, the client page's optimistic update stores
the term under the local players collection, but the subscription
itself is rejected — the server action fails with the generic error and
the persisted set is unchanged. -/
theorem C8_custom_category (w : Bool) (term c : String) (s : SubsObj)
    (h : jsToLower c ∉ fourCats) :
    optimisticBucket c = .players ∧
    (subscribeAction4 w term c (.good s)).1 = .error "Failed to subscribe" ∧
    (subscribeAction4 w term c (.good s)).2 = .good s := by
  have hc1 : c ≠ "league" := by rintro rfl; exact h (by decide)
  have hc2 : c ≠ "team" := by rintro rfl; exact h (by decide)
  have hc3 : c ≠ "player" := by rintro rfl; exact h (by decide)
  have hc4 : c ≠ "tournament" := by rintro rfl; exact h (by decide)
  refine ⟨?_, ?_, ?_⟩
  · simp [optimisticBucket, hc1, hc2, hc3, hc4]
  · rw [subscribeAction4_unrecognized w term c (.good s) h]
  · rw [subscribeAction4_unrecognized w term c (.good s) h]
    cases w <;> rfl

/-- C8 amended witness at the custom category "galaxy". -/
theorem C8_custom_category_witness :
    optimisticBucket "galaxy" = .players ∧
    (subscribeAction4 true "X" "galaxy" (.good default4)).1 = .error "Failed to subscribe" :=
  ⟨(C8_custom_category true "X" "galaxy" default4 (by decide)).1,
   (C8_custom_category true "X" "galaxy" default4 (by decide)).2.1⟩

/-- C9: starting from a stored set whose four collections are
duplicate-free, every add and every remove — any term, any category,
whether or not the durable write succeeds — leaves a state whose stored
collections are still duplicate-free. -/
theorem C9_nodup_invariant (w : Bool) (term cat : String) (s : SubsObj) (h : NodupSubs s) :
    NodupState (subscribeAction4 w term cat (.good s)).2 ∧
    NodupState (unsubscribeAction4 w term cat (.good s)).2 := by
  obtain ⟨hl, ht, hp, htt⟩ := h
  have hgood : NodupState (FileState.good s) := ⟨hl, ht, hp, htt⟩
  constructor
  · rcases hs : s.tournaments with _ | ts <;>
      simp only [subscribeAction4, getSubscriptions4, hs] <;>
      split_ifs <;>
      first
        | exact hgood
        | exact ⟨nodup_push hl (by assumption), ht, hp, by simpa [hs] using htt⟩
        | exact ⟨hl, nodup_push ht (by assumption), hp, by simpa [hs] using htt⟩
        | exact ⟨hl, ht, nodup_push hp (by assumption), by simpa [hs] using htt⟩
        | exact ⟨hl, ht, hp,
            by simpa using nodup_push (show ts.Nodup by simpa [hs] using htt) (by assumption)⟩
  · rcases hs : s.tournaments with _ | ts <;>
      simp only [unsubscribeAction4, getSubscriptions4, hs] <;>
      split_ifs <;>
      first
        | exact hgood
        | exact ⟨hl.filter _, ht, hp, by simpa [hs] using htt⟩
        | exact ⟨hl, ht.filter _, hp, by simpa [hs] using htt⟩
        | exact ⟨hl, ht, hp.filter _, by simpa [hs] using htt⟩
        | exact ⟨hl, ht, hp,
            by simpa using (show ts.Nodup by simpa [hs] using htt).filter _⟩

/-- C9 witness at a concrete duplicate-free set. -/
theorem C9_nodup_invariant_witness :
    NodupState (subscribeAction4 true "X" "team" (.good default4)).2 ∧
    NodupState (unsubscribeAction4 true "X" "team" (.good default4)).2 :=
  C9_nodup_invariant true "X" "team" default4 (by simp [NodupSubs, default4])

/-- Every failure of `subscribeAction` (part_000) carries the single
generic message. -/
lemma subscribeAction4_error_msg (w : Bool) (term cat : String) (fs : FileState) (e : String)
    (h : (subscribeAction4 w term cat fs).1 = .error e) : e = "Failed to subscribe" := by
  simp only [subscribeAction4] at h
  split_ifs at h <;> try simp_all
  all_goals split at h <;> (try split_ifs at h) <;> simp_all

/-- Every failure of `unsubscribeAction` (part_000) carries the single
generic message. -/
lemma unsubscribeAction4_error_msg (w : Bool) (term cat : String) (fs : FileState) (e : String)
    (h : (unsubscribeAction4 w term cat fs).1 = .error e) : e = "Failed to unsubscribe" := by
  simp only [unsubscribeAction4] at h
  split_ifs at h <;> try simp_all
  all_goals split at h <;> (try split_ifs at h) <;> simp_all

/-- Every failure of the older `subscribeAction` (actions.ts) carries
the single generic message. -/
lemma subscribeAction3_error_msg (w : Bool) (term cat : String) (fs : FileState) (e : String)
    (h : (subscribeAction3 w term cat fs).1 = .error e) : e = "Failed to subscribe" := by
  simp only [subscribeAction3] at h
  split_ifs at h <;> simp_all

/-- Every failure of the older `unsubscribeAction` (actions.ts) carries
the single generic message. -/
lemma unsubscribeAction3_error_msg (w : Bool) (term cat : String) (fs : FileState) (e : String)
    (h : (unsubscribeAction3 w term cat fs).1 = .error e) : e = "Failed to unsubscribe" := by
  simp only [unsubscribeAction3] at h
  split_ifs at h <;> simp_all

/-- C10: every failure of the server-action entry points — whatever its
cause, an unrecognised category or a failing durable write, in either
generation of the module — is surfaced as the single generic message
`Failed to subscribe` (respectively `Failed to unsubscribe`), so the
caller cannot distinguish an invalid-category rejection from a
persistence error. -/
theorem C10_generic_failure (w1 w2 w3 w4 : Bool) (t1 c1 t2 c2 t3 c3 t4 c4 : String)
    (f1 f2 f3 f4 : FileState) (e1 e2 e3 e4 : String)
    (h1 : (subscribeAction4 w1 t1 c1 f1).1 = .error e1)
    (h2 : (unsubscribeAction4 w2 t2 c2 f2).1 = .error e2)
    (h3 : (subscribeAction3 w3 t3 c3 f3).1 = .error e3)
    (h4 : (unsubscribeAction3 w4 t4 c4 f4).1 = .error e4) :
    e1 = "Failed to subscribe" ∧ e2 = "Failed to unsubscribe" ∧
    e3 = "Failed to subscribe" ∧ e4 = "Failed to unsubscribe" :=
  ⟨subscribeAction4_error_msg w1 t1 c1 f1 e1 h1,
   unsubscribeAction4_error_msg w2 t2 c2 f2 e2 h2,
   subscribeAction3_error_msg w3 t3 c3 f3 e3 h3,
   unsubscribeAction3_error_msg w4 t4 c4 f4 e4 h4⟩

/-- C10 witness: an invalid-category failure (category "galaxy") and a
persistence-write failure (category "team" with the write failing)
both instantiate the theorem, carrying the same generic messages. -/
theorem C10_generic_failure_witness :
    ("Failed to subscribe" : String) = "Failed to subscribe" ∧
    ("Failed to unsubscribe" : String) = "Failed to unsubscribe" ∧
    ("Failed to subscribe" : String) = "Failed to subscribe" ∧
    ("Failed to unsubscribe" : String) = "Failed to unsubscribe" :=
  C10_generic_failure true true false true "X" "galaxy" "X" "galaxy" "X" "team" "X" "galaxy"
    (.good default4) (.good default4) (.good default3) (.good default3)
    "Failed to subscribe" "Failed to unsubscribe" "Failed to subscribe" "Failed to unsubscribe"
    rfl rfl rfl rfl

end Football
